import Mathlib

/-!
Verification of the MeshSwap atomic-swap coordinator against its
natural-language specification.

The development shallowly embeds the protocol-relevant parts of the
repository:

* the hashlock model pinned by the repository's golden-vector check
  (`HashLock.hashSecret`), together with a byte-level keccak-256 and, for
  comparison with the specification's wording, a byte-level SHA-256;
* the relative timelock offsets of every order-construction site
  (`make_order` in the maker script and the inline `createCrossChainOrder`
  variants);
* the `Resolver` transaction encoders (`deploySrc`, `withdraw`, `cancel`);
* `EscrowFactory.getSrcDeployEvent` (decoding of the `SrcEscrowCreated`
  log of a block);
* the maker-side and taker-side `main` programs as traces of outward
  actions (submitted transactions, file reads/writes, RPC queries,
  sleeps);
* the Solidity `EscrowFactory` constructor.

Secrets, hashes and calldata are byte lists (`List Nat`, each element a
byte); addresses, amounts and word-sized values are `Nat`.
-/

/-! ## Byte-level keccak-256

`HashLock.hashSecret` of `@1inch/cross-chain-sdk` is the hash behind every
hashlock in the repository.  Its implementation is not part of the
repository; the repository's golden-vector check (the `main` that compares
`HashLock.hashSecret` of a fixed secret against a fixed expected hash)
pins its value, and keccak-256 reproduces that pinned value, as proved
below. -/

def mask64 : Nat := 2 ^ 64 - 1

def rol64 (x n : Nat) : Nat := ((x <<< n) ||| (x >>> (64 - n))) &&& mask64

def keccakRC : List Nat :=
  [1, 32898, 9223372036854808714,
   9223372039002292224, 32907, 2147483649,
   9223372039002292353, 9223372036854808585, 138,
   136, 2147516425, 2147483658,
   2147516555, 9223372036854775947, 9223372036854808713,
   9223372036854808579, 9223372036854808578, 9223372036854775936,
   32778, 9223372039002259466, 9223372039002292353,
   9223372036854808704, 2147483649, 9223372039002292232]

/-- Rotation offsets r[x][y], flattened at index 5*x + y. -/
def keccakRot : List Nat :=
  [0, 36, 3, 41, 18,
   1, 44, 10, 45, 2,
   62, 6, 43, 15, 61,
   28, 55, 25, 21, 56,
   27, 20, 39, 8, 14]

/-- Lane (x, y) of a 25-lane state stored at index x + 5*y. -/
def lane (s : List Nat) (x y : Nat) : Nat := s.getD (x + 5 * y) 0

def keccakTheta (s : List Nat) : List Nat :=
  let c := (List.range 5).map fun x =>
    lane s x 0 ^^^ lane s x 1 ^^^ lane s x 2 ^^^ lane s x 3 ^^^ lane s x 4
  let d := (List.range 5).map fun x =>
    c.getD ((x + 4) % 5) 0 ^^^ rol64 (c.getD ((x + 1) % 5) 0) 1
  (List.range 25).map fun i => s.getD i 0 ^^^ d.getD (i % 5) 0

def keccakRhoPi (s : List Nat) : List Nat :=
  (List.range 25).map fun j =>
    let X := j % 5
    let Y := j / 5
    let x := (X + 3 * Y) % 5
    let y := X
    rol64 (lane s x y) (keccakRot.getD (5 * x + y) 0)

def keccakChi (s : List Nat) : List Nat :=
  (List.range 25).map fun j =>
    let x := j % 5
    let y := j / 5
    lane s x y ^^^ (((lane s ((x + 1) % 5) y) ^^^ mask64) &&& lane s ((x + 2) % 5) y)

def keccakIota (s : List Nat) (rc : Nat) : List Nat :=
  s.set 0 (s.getD 0 0 ^^^ rc)

def keccakF (s : List Nat) : List Nat :=
  keccakRC.foldl (fun st rc => keccakIota (keccakChi (keccakRhoPi (keccakTheta st))) rc) s

/-- The keccak pad10*1 rule for a 136-byte rate. -/
def keccakPad (msg : List Nat) : List Nat :=
  let padLen := 136 - msg.length % 136
  if padLen == 1 then msg ++ [0x81]
  else msg ++ [0x01] ++ List.replicate (padLen - 2) 0 ++ [0x80]

/-- Little-endian bytes to a 64-bit lane. -/
def leLane (bs : List Nat) : Nat := bs.foldr (fun b acc => b + 256 * acc) 0

def xorBlock (s block : List Nat) : List Nat :=
  (List.range 25).map fun i =>
    if i < 17 then s.getD i 0 ^^^ leLane ((block.drop (8 * i)).take 8)
    else s.getD i 0

def absorbAux : Nat → List Nat → List Nat → List Nat
  | 0, s, _ => s
  | fuel + 1, s, msg =>
    if msg.isEmpty then s
    else absorbAux fuel (keccakF (xorBlock s (msg.take 136))) (msg.drop 136)

def laneBytes (n : Nat) : List Nat :=
  (List.range 8).map fun k => (n >>> (8 * k)) % 256

def keccak256 (msg : List Nat) : List Nat :=
  let padded := keccakPad msg
  let final := absorbAux padded.length (List.replicate 25 0) padded
  laneBytes (final.getD 0 0) ++ laneBytes (final.getD 1 0) ++
  laneBytes (final.getD 2 0) ++ laneBytes (final.getD 3 0)

/-! ## Byte-level SHA-256

The specification describes the hashlock as `HashLock = SHA256(s)`.  This
definition follows the specification's words (FIPS 180-4 SHA-256) so that
it can be compared with the hash the repository actually pins. -/

def mask32 : Nat := 2 ^ 32 - 1

def rotr32 (x n : Nat) : Nat := ((x >>> n) ||| (x <<< (32 - n))) &&& mask32

def shaK : List Nat :=
  [1116352408, 1899447441, 3049323471, 3921009573, 961987163, 1508970993,
   2453635748, 2870763221, 3624381080, 310598401, 607225278, 1426881987,
   1925078388, 2162078206, 2614888103, 3248222580, 3835390401, 4022224774,
   264347078, 604807628, 770255983, 1249150122, 1555081692, 1996064986,
   2554220882, 2821834349, 2952996808, 3210313671, 3336571891, 3584528711,
   113926993, 338241895, 666307205, 773529912, 1294757372, 1396182291,
   1695183700, 1986661051, 2177026350, 2456956037, 2730485921, 2820302411,
   3259730800, 3345764771, 3516065817, 3600352804, 4094571909, 275423344,
   430227734, 506948616, 659060556, 883997877, 958139571, 1322822218,
   1537002063, 1747873779, 1955562222, 2024104815, 2227730452, 2361852424,
   2428436474, 2756734187, 3204031479, 3329325298]

def shaH0 : List Nat :=
  [1779033703, 3144134277, 1013904242, 2773480762,
   1359893119, 2600822924, 528734635, 1541459225]

/-- Big-endian 8-byte encoding. -/
def be64 (n : Nat) : List Nat :=
  (List.range 8).map fun k => (n >>> (8 * (7 - k))) % 256

def sha256Pad (msg : List Nat) : List Nat :=
  let padZeros := (119 - msg.length % 64) % 64
  msg ++ [0x80] ++ List.replicate padZeros 0 ++ be64 (8 * msg.length)

/-- Big-endian bytes to a 32-bit word. -/
def beWord (bs : List Nat) : Nat := bs.foldl (fun acc b => acc * 256 + b) 0

def shaSchedule (block : List Nat) : List Nat :=
  let w0 := (List.range 16).map fun i => beWord ((block.drop (4 * i)).take 4)
  (List.range 48).foldl
    (fun w _ =>
      let n := w.length
      let w2 := w.getD (n - 2) 0
      let w7 := w.getD (n - 7) 0
      let w15 := w.getD (n - 15) 0
      let w16 := w.getD (n - 16) 0
      let s0 := rotr32 w15 7 ^^^ rotr32 w15 18 ^^^ (w15 >>> 3)
      let s1 := rotr32 w2 17 ^^^ rotr32 w2 19 ^^^ (w2 >>> 10)
      w ++ [(w16 + s0 + w7 + s1) &&& mask32])
    w0

def shaCompress (h : List Nat) (block : List Nat) : List Nat :=
  let w := shaSchedule block
  let final := (List.range 64).foldl
    (fun v i =>
      let a := v.getD 0 0
      let b := v.getD 1 0
      let c := v.getD 2 0
      let d := v.getD 3 0
      let e := v.getD 4 0
      let f := v.getD 5 0
      let g := v.getD 6 0
      let hh := v.getD 7 0
      let s1 := rotr32 e 6 ^^^ rotr32 e 11 ^^^ rotr32 e 25
      let ch := (e &&& f) ^^^ ((e ^^^ mask32) &&& g)
      let t1 := (hh + s1 + ch + shaK.getD i 0 + w.getD i 0) &&& mask32
      let s0 := rotr32 a 2 ^^^ rotr32 a 13 ^^^ rotr32 a 22
      let mj := (a &&& b) ^^^ (a &&& c) ^^^ (b &&& c)
      let t2 := (s0 + mj) &&& mask32
      [(t1 + t2) &&& mask32, a, b, c, (d + t1) &&& mask32, e, f, g])
    h
  (List.range 8).map fun i => (h.getD i 0 + final.getD i 0) &&& mask32

def shaBlocksAux : Nat → List Nat → List Nat → List Nat
  | 0, h, _ => h
  | fuel + 1, h, msg =>
    if msg.isEmpty then h
    else shaBlocksAux fuel (shaCompress h (msg.take 64)) (msg.drop 64)

def wordBytes (n : Nat) : List Nat :=
  (List.range 4).map fun k => (n >>> (8 * (3 - k))) % 256

def sha256 (msg : List Nat) : List Nat :=
  let padded := sha256Pad msg
  let h := shaBlocksAux padded.length shaH0 padded
  (h.map wordBytes).flatten

/-! ## Secret and HashLock model

Secrets are 32-byte values, written in the TypeScript sources as 0x-hex
strings and represented here by their byte sequences. -/

namespace HashLock

/-- Modelled from the spec: `commit(secret) -> HashLock` is implemented by
`HashLock.hashSecret` of the external `@1inch/cross-chain-sdk`, whose
source is not part of this repository.  The spec calls it a deterministic
one-way hash (and, in its concrete scenario, SHA-256); the repository's
own golden-vector check pins `hashSecret` of a fixed secret to a fixed
32-byte value, and that value is the keccak-256 of the secret (see
`hashlock_correctness` below), not its SHA-256.  We therefore embed
`hashSecret` as keccak-256 over the secret's bytes. -/
def hashSecret (secret : List Nat) : List Nat := keccak256 secret

/-- `HashLock.forSingleFill(secret)` commits the order's hashlock to the
single secret's `hashSecret` value. -/
def forSingleFill (secret : List Nat) : List Nat := hashSecret secret

/-- Modelled from the spec: `verify(hashlock, secret) -> bool` is the pure
equality check, performed on-chain, of the commitment against the hash of
a presented secret. -/
def verify (hashlock : List Nat) (secret : List Nat) : Bool :=
  hashSecret secret == hashlock

end HashLock

/-- The fixed secret of the repository's golden-vector check,
0x242b7a112ced4f1e688d117f358e3534e92f9e5fc89a5d0b2f843afebb9742f6. -/
def goldenSecret : List Nat :=
  [0x24, 0x2b, 0x7a, 0x11, 0x2c, 0xed, 0x4f, 0x1e, 0x68, 0x8d, 0x11, 0x7f, 0x35, 0x8e,
   0x35, 0x34, 0xe9, 0x2f, 0x9e, 0x5f, 0xc8, 0x9a, 0x5d, 0x0b, 0x2f, 0x84, 0x3a, 0xfe,
   0xbb, 0x97, 0x42, 0xf6]

/-- The expected hash of the repository's golden-vector check,
0xe7df6c631fad9c95bdf7e16b37d3f92184d59eb59155b3e60204b75c3b5984b3. -/
def goldenExpectedHash : List Nat :=
  [0xe7, 0xdf, 0x6c, 0x63, 0x1f, 0xad, 0x9c, 0x95, 0xbd, 0xf7, 0xe1, 0x6b, 0x37, 0xd3,
   0xf9, 0x21, 0x84, 0xd5, 0x9e, 0xb5, 0x91, 0x55, 0xb3, 0xe6, 0x02, 0x04, 0xb7, 0x5c,
   0x3b, 0x59, 0x84, 0xb3]

/-- A sample 32-byte secret distinct from `goldenSecret`. -/
def otherSecret : List Nat :=
  [0x01, 0x02, 0x03, 0x04, 0x05, 0x06, 0x07, 0x08, 0x09, 0x0a, 0x0b, 0x0c, 0x0d, 0x0e,
   0x0f, 0x10, 0x11, 0x12, 0x13, 0x14, 0x15, 0x16, 0x17, 0x18, 0x19, 0x1a, 0x1b, 0x1c,
   0x1d, 0x1e, 0x1f, 0x20]

/-! ## TimeLock schedule

`TimeLocks.new` of the SDK takes the record of relative offsets below.
Each order-construction site of the repository passes a literal record of
constants. -/

structure TimeLockOffsets where
  srcWithdrawal : Nat
  srcPublicWithdrawal : Nat
  srcCancellation : Nat
  srcPublicCancellation : Nat
  dstWithdrawal : Nat
  dstPublicWithdrawal : Nat
  dstCancellation : Nat
deriving DecidableEq

/-- The ordering invariant of the spec, section 3: on each side,
`withdrawal < publicWithdrawal < cancellation`. -/
def orderedOffsets (t : TimeLockOffsets) : Bool :=
  decide (t.srcWithdrawal < t.srcPublicWithdrawal) &&
  decide (t.srcPublicWithdrawal < t.srcCancellation) &&
  decide (t.dstWithdrawal < t.dstPublicWithdrawal) &&
  decide (t.dstPublicWithdrawal < t.dstCancellation)

inductive ValidationError where
  | nonIncreasingTimeLocks
deriving DecidableEq

/-- Modelled from the spec: the construction of timelocks from relative
offsets is `TimeLocks.new` of the external `@1inch/cross-chain-sdk`,
whose source is not part of this repository.  Per the spec (sections 4.2
and 7), offsets violating the monotonic ordering invariant are rejected
with a `ValidationError`, before any transaction is submitted to a
chain. -/
def TimeLocksNew (t : TimeLockOffsets) : Except ValidationError TimeLockOffsets :=
  if orderedOffsets t then Except.ok t else Except.error ValidationError.nonIncreasingTimeLocks

/-- The timelock offsets passed by `make_order` of the maker script:
srcWithdrawal 10 s, srcPublicWithdrawal 120 s, srcCancellation 121 s,
srcPublicCancellation 122 s, dstWithdrawal 10 s, dstPublicWithdrawal
100 s, dstCancellation 101 s. -/
def makeOrderOffsets : TimeLockOffsets :=
  { srcWithdrawal := 10
    srcPublicWithdrawal := 120
    srcCancellation := 121
    srcPublicCancellation := 122
    dstWithdrawal := 10
    dstPublicWithdrawal := 100
    dstCancellation := 101 }

/-- The timelock offsets passed by `createCrossChainOrder` of the 1inch
demo taker (the same literal constants as `make_order`). -/
def createCrossChainOrderOffsets : TimeLockOffsets := makeOrderOffsets

/-- The timelock offsets passed by the order-only maker variant (the
same literal constants). -/
def makerVariantOffsets : TimeLockOffsets := makeOrderOffsets

/-- The timelock offsets passed by the fill-only resolver variant (the
same literal constants). -/
def resolverVariantOffsets : TimeLockOffsets := makeOrderOffsets

/-! ## Configuration constants

The hardcoded addresses and amounts of `config.ts`.  Addresses are
represented by their numeric value. -/

namespace CONFIG

def escrowFactory : Nat := 0xE4166E7107f59917ae783d28c10c569fBac1bEA1
def resolverContract : Nat := 0x1e34aaC4a7506Ff6F140158D6B9E62F845760435
def limitOrderContract : Nat := 0x111111125421cA6dc452d289314280a0f8842A65
def resolverBitcoinContract : Nat := 0
def resolverAddress : Nat := 0xf39Fd6e51aad88F6F4ce6aB8827279cffFb92266
def WETH : Nat := 0xC02aaA39b223FE8D0A0e5C4F27eAD9083C756Cc2
def USDC : Nat := 0xa0b86991c6218b36c1d19d4a2e9eb0ce3606eb48
def BTC : Nat := 0
def chainEvm : Nat := 1
def chainSrc : Nat := 1
def chainDst : Nat := 100
def srcSafetyDeposit : Nat := 0
def dstSafetyDeposit : Nat := 0

end CONFIG

/-! ## Immutables and the SrcEscrowCreated event -/

/-- The frozen escrow parameters decoded from a `SrcEscrowCreated` log by
`EscrowFactory.getSrcDeployEvent` (`Immutables.new` of the SDK).  Word
values (`bytes32` hashes, addresses, the packed timelocks) are `Nat`. -/
structure Immutables where
  orderHash : Nat
  hashLock : Nat
  maker : Nat
  taker : Nat
  token : Nat
  amount : Nat
  safetyDeposit : Nat
  timeLocks : Nat
deriving DecidableEq

structure DstImmutablesComplement where
  maker : Nat
  amount : Nat
  token : Nat
  safetyDeposit : Nat
deriving DecidableEq

/-- An Ethereum log as returned by `provider.getLogs`: the emitting
address, the first topic, and (for a `SrcEscrowCreated` log) the two
decoded data tuples `data.at(0)` (eight words of source immutables) and
`data.at(1)` (four words of destination complement). -/
structure SrcEscrowEventWords where
  v0 : Nat
  v1 : Nat
  v2 : Nat
  v3 : Nat
  v4 : Nat
  v5 : Nat
  v6 : Nat
  v7 : Nat
deriving DecidableEq

structure ComplementWords where
  c0 : Nat
  c1 : Nat
  c2 : Nat
  c3 : Nat
deriving DecidableEq

structure EthLog where
  address : Nat
  topic : Nat
  srcImmutablesData : SrcEscrowEventWords
  complementData : ComplementWords
deriving DecidableEq

/-- An uncaught JavaScript exception. `typeError` models the TypeError
thrown by reading a property of `undefined`. -/
inductive JsError where
  | typeError
deriving DecidableEq

/-- The decoding performed by `getSrcDeployEvent` on one log:
`Immutables.new` from `data.at(0)` and `DstImmutablesComplement.new` from
`data.at(1)` (the `HashLock.fromString` / `Address.fromBigInt` /
`TimeLocks.fromBigInt` wrappers are representation-preserving on word
values). -/
def decodeSrcEscrowCreated (l : EthLog) : Immutables × DstImmutablesComplement :=
  let i := l.srcImmutablesData
  let c := l.complementData
  ({ orderHash := i.v0
     hashLock := i.v1
     maker := i.v2
     taker := i.v3
     token := i.v4
     amount := i.v5
     safetyDeposit := i.v6
     timeLocks := i.v7 },
   { maker := c.c0
     amount := c.c1
     token := c.c2
     safetyDeposit := c.c3 })

/-- Embedding of `EscrowFactory.getSrcDeployEvent` (escrow-factory.ts):
fetch the block's logs filtered by the factory address and the
`SrcEscrowCreated` topic hash, decode them, and destructure the first
decoded entry.  `topic` stands for the fixed ABI constant
`iface.getEvent('SrcEscrowCreated').topicHash`.  When no log matches,
`const [data] = []` leaves `data` undefined and `data.at(0)` throws a
TypeError, modelled as `Except.error JsError.typeError`. -/
def getSrcDeployEvent (factory topic : Nat) (blockLogs : List EthLog) :
    Except JsError (Immutables × DstImmutablesComplement) :=
  let logs := blockLogs.filter fun l => l.address == factory && l.topic == topic
  match logs.map decodeSrcEscrowCreated with
  | [] => Except.error JsError.typeError
  | d :: _ => Except.ok d

/-! ## Resolver transaction encoders -/

inductive Side where
  | src
  | dst
deriving DecidableEq

/-- A minimal `CrossChainOrder`: the fields fixed at the order-construction
sites of the repository. The randomly drawn `salt` and `nonce` are
parameters of the construction. -/
structure CrossChainOrder where
  salt : Nat
  maker : Nat
  makingAmount : Nat
  takingAmount : Nat
  makerAsset : Nat
  takerAsset : Nat
  hashLock : List Nat
  timeLocks : TimeLockOffsets
  srcChainId : Nat
  dstChainId : Nat
  srcSafetyDeposit : Nat
  dstSafetyDeposit : Nat
  nonce : Nat
deriving DecidableEq

/-- Big-endian byte-list value as one machine word. -/
def beNat (bs : List Nat) : Nat := bs.foldl (fun acc b => acc * 256 + b) 0

/-- Little-endian 8-byte encoding of a machine word (`laneBytes`). -/
def le8 (n : Nat) : List Nat := laneBytes n

/-- Modelled from the spec: `order.getOrderHash(chainId)` of the external
SDK — the deterministic hash of the signed order, binding the chain
identifier (section 4.5).  Embedded as keccak-256 of a byte encoding of
the order fields and the chain id. -/
def getOrderHash (o : CrossChainOrder) (chainId : Nat) : Nat :=
  beNat (keccak256 (le8 chainId ++ le8 o.salt ++ le8 o.nonce ++ le8 o.maker ++
    le8 o.makingAmount ++ le8 o.takingAmount ++ o.hashLock))

/-- Modelled from the spec: `order.toSrcImmutables(chainId, taker, amount,
hashLock)` of the external SDK freezes the source-side escrow parameters
(section 3: order hash, hashlock, maker, taker/resolver, asset, amount,
safety deposit, timelocks). -/
def toSrcImmutables (o : CrossChainOrder) (chainId : Nat) (taker : Nat) (amount : Nat)
    (hashLock : List Nat) : Immutables :=
  { orderHash := getOrderHash o chainId
    hashLock := beNat hashLock
    maker := o.maker
    taker := taker
    token := o.makerAsset
    amount := amount
    safetyDeposit := o.srcSafetyDeposit
    timeLocks := 0 }

/-- ABI-encoded calldata of a transaction request.  Constructors mirror
`iface.encodeFunctionData` calls (the selector plus arguments make the
encoding injective per function); `rawHex` is calldata handed around as an
opaque hex string (the persisted `resolverTxnData`); the WETH helpers
cover the funding transactions of the wrapper code. -/
inductive CallData where
  | deploySrc (immutables : Immutables) (order : CrossChainOrder) (r vs : Nat)
      (amount : Nat) (trait : Nat) (args : Nat)
  | withdraw (escrow : Nat) (secret : List Nat) (immutables : Immutables)
  | cancel (escrow : Nat) (immutables : Immutables)
  | wethDeposit
  | wethApprove (spender amount : Nat)
  | wethTransfer (recipient amount : Nat)
deriving DecidableEq

structure TransactionRequest where
  toAddr : Nat
  data : CallData
  value : Option Nat
deriving DecidableEq

/-- Embedding of the `Resolver` class (resolver.ts). -/
structure Resolver where
  srcAddress : Nat
  dstAddress : Nat
deriving DecidableEq

/-- `Resolver.deploySrc`: encode `deploySrc(immutables, order, r, vs,
amount, trait, args)` to the source-side resolver contract, carrying the
source safety deposit as transaction value.  The signature parts `r`/`vs`
and the encoded taker traits are parameters. -/
def Resolver.deploySrc (res : Resolver) (chainId : Nat) (order : CrossChainOrder)
    (r vs : Nat) (trait args : Nat) (amount : Nat)
    (hashLock : List Nat := order.hashLock) : TransactionRequest :=
  { toAddr := res.srcAddress
    data := CallData.deploySrc (toSrcImmutables order chainId res.srcAddress amount hashLock)
      order r vs amount trait args
    value := some order.srcSafetyDeposit }

/-- `Resolver.withdraw`: encode `withdraw(escrow, secret, immutables)` to
the side's resolver contract.  No state is read and no value attached. -/
def Resolver.withdraw (res : Resolver) (side : Side) (escrow : Nat) (secret : List Nat)
    (immutables : Immutables) : TransactionRequest :=
  { toAddr := match side with
      | Side.src => res.srcAddress
      | Side.dst => res.dstAddress
    data := CallData.withdraw escrow secret immutables
    value := none }

/-- `Resolver.cancel`: encode `cancel(escrow, immutables)` to the side's
resolver contract.  No state is read and no value attached. -/
def Resolver.cancel (res : Resolver) (side : Side) (escrow : Nat)
    (immutables : Immutables) : TransactionRequest :=
  { toAddr := match side with
      | Side.src => res.srcAddress
      | Side.dst => res.dstAddress
    data := CallData.cancel escrow immutables
    value := none }

/-! ## The Solidity EscrowFactory constructor -/

/-- The argument record of the base `BaseEscrowFactory` constructor of the
`cross-chain-swap` library. -/
structure BaseEscrowFactoryArgs where
  limitOrderProtocol : Nat
  feeToken : Nat
  accessToken : Nat
  owner : Nat
  rescueDelaySrc : Nat
  rescueDelayDst : Nat
deriving DecidableEq

/-- Embedding of the constructor of `EscrowFactory.sol`: it forwards its
arguments to the base constructor, passing `rescueDelayDst` in both
rescue-delay positions. -/
def EscrowFactoryConstructor (limitOrderProtocol feeToken accessToken owner
    rescueDelaySrc rescueDelayDst : Nat) : BaseEscrowFactoryArgs :=
  { limitOrderProtocol := limitOrderProtocol
    feeToken := feeToken
    accessToken := accessToken
    owner := owner
    rescueDelaySrc := rescueDelayDst
    rescueDelayDst := rescueDelayDst }

/-! ## The maker program (maker.ts) -/

/-- The `OrderParams` interface of maker.ts. -/
structure OrderParams where
  makerAddress : Nat
  amountMaking : Nat
  amountTaking : Nat
  hashLockSecret : List Nat
  startTime : Nat
deriving DecidableEq

/-- Embedding of `make_order` (maker.ts): builds the `CrossChainOrder`
with the literal configuration constants and timelock offsets.  The
randomly drawn `salt` (`randBigInt(1000n)`) and `nonce`
(`randBigInt(UINT_40_MAX)`) are lifted to parameters. -/
def make_order (params : OrderParams) (salt nonce : Nat) : CrossChainOrder :=
  { salt := salt
    maker := params.makerAddress
    makingAmount := params.amountMaking
    takingAmount := params.amountTaking
    makerAsset := CONFIG.WETH
    takerAsset := CONFIG.BTC
    hashLock := HashLock.forSingleFill params.hashLockSecret
    timeLocks := makeOrderOffsets
    srcChainId := CONFIG.chainSrc
    dstChainId := CONFIG.chainDst
    srcSafetyDeposit := CONFIG.srcSafetyDeposit
    dstSafetyDeposit := CONFIG.dstSafetyDeposit
    nonce := nonce }

/-- The `OrderData` interface: the handoff artifact persisted to
order.json.  It has exactly the five fields written by maker.ts and read
by taker.ts. -/
structure OrderData where
  orderHash : Nat
  resolverTxnData : CallData
  secret : List Nat
  makerAmount : Nat
  takerAmount : Nat
deriving DecidableEq

/-- The ambient inputs of a maker run: the maker address, the maker
wallet's current WETH balance, the secret hash input read from the
prover's public_params.json, the latest block timestamp, and the random
draws and signature parts produced during the run. -/
structure MakerEnv where
  userAddress : Nat
  userWethBalance : Nat
  hashLockSecret : List Nat
  startTime : Nat
  salt : Nat
  nonce : Nat
  sigR : Nat
  sigVS : Nat
  traits : Nat
  traitArgs : Nat
deriving DecidableEq

/-- The order maker.ts builds: `make_order` applied to the literal
amounts `parseEther('1')` making and `parseEther('0.01')` taking. -/
def makerOrder (e : MakerEnv) : CrossChainOrder :=
  make_order
    { makerAddress := e.userAddress
      amountMaking := 10 ^ 18
      amountTaking := 10 ^ 16
      hashLockSecret := e.hashLockSecret
      startTime := e.startTime }
    e.salt e.nonce

/-- The `Resolver` instance of maker.ts and taker.ts:
`new Resolver(resolverContract, resolverBitcoinContract)`. -/
def takerResolver : Resolver :=
  { srcAddress := CONFIG.resolverContract
    dstAddress := CONFIG.resolverBitcoinContract }

/-- The `OrderData` value maker.ts assembles and writes to order.json:
the order hash, the `deploySrc` calldata, the secret itself, and the two
amounts. -/
def makerOrderData (e : MakerEnv) : OrderData :=
  let order := makerOrder e
  { orderHash := getOrderHash order CONFIG.chainEvm
    resolverTxnData :=
      (takerResolver.deploySrc CONFIG.chainEvm order e.sigR e.sigVS e.traits e.traitArgs
        order.makingAmount).data
    secret := e.hashLockSecret
    makerAmount := order.makingAmount
    takerAmount := order.takingAmount }

/-! ## Observable actions

The maker and taker `main` programs are embedded as the sequence of their
outward-visible actions: transactions submitted, RPC queries, files read
and written, sleeps.  `observeEscrowState` is the capability of querying
an escrow's current lifecycle state (spec section 6, `confirmedState`);
the repository's code never exercises it. -/

inductive EscrowState where
  | created
  | funded
  | withdrawn
  | cancelled
deriving DecidableEq

inductive SwapAction where
  | submitTx (tx : TransactionRequest)
  | queryBalance (token holder : Nat)
  | queryLogsFor (emitter topic : Nat)
  | contractView (target : Nat) (selector : Nat)
  | queryBlock
  | readFile (path : String)
  | writeOrderFile (path : String) (od : OrderData)
  | observeEscrowState (chain escrow : Nat) (st : EscrowState)
  | sleepMs (ms : Nat)
  | logMsg
deriving DecidableEq

/-- Embedding of `ensureWethAndApproval` (utils.ts): query the wallet's
WETH balance, deposit `parseEther('5')` when the balance is below it, and
approve the limit-order contract. -/
def ensureWethAndApproval (user userBal : Nat) : List SwapAction :=
  [SwapAction.queryBalance CONFIG.WETH user] ++
  (if userBal < 5 * 10 ^ 18 then
    [SwapAction.submitTx (TransactionRequest.mk CONFIG.WETH CallData.wethDeposit
      (some (5 * 10 ^ 18)))]
   else []) ++
  [SwapAction.submitTx (TransactionRequest.mk CONFIG.WETH
    (CallData.wethApprove CONFIG.limitOrderContract (5 * 10 ^ 18)) none)]

def publicParamsPath : String := "../prover/script/public_params.json"

def orderJsonPath : String := "order.json"

/-- Embedding of `main` of maker.ts as its trace of outward actions:
fund/approve WETH, read the prover's public parameters (the secret), read
the latest block, then build, sign and persist the order — the order
hash, `deploySrc` calldata, secret and amounts are written to order.json.
Order construction, hashing and signing are local computations with no
outward action. -/
def makerMainTrace (e : MakerEnv) : List SwapAction :=
  ensureWethAndApproval e.userAddress e.userWethBalance ++
  [SwapAction.readFile publicParamsPath, SwapAction.queryBlock,
   SwapAction.writeOrderFile orderJsonPath (makerOrderData e)]

/-! ## The taker program (taker.ts) -/

/-- Modelled from the spec: `getSrcEscrowAddress` of the external SDK —
the escrow address deterministically derived from the recorded immutables
and the escrow implementation address (section 3: the Immutables
deterministically identify/derive an escrow).  Embedded as keccak-256 of
a byte encoding of both. -/
def getSrcEscrowAddress (imm : Immutables) (impl : Nat) : Nat :=
  beNat (keccak256 (le8 imm.orderHash ++ le8 imm.hashLock ++ le8 imm.maker ++
    le8 imm.taker ++ le8 imm.token ++ le8 imm.amount ++ le8 imm.safetyDeposit ++
    le8 imm.timeLocks ++ le8 impl))

/-- The ambient inputs of a taker run: the resolver contract's current
WETH balance, the `ESCROW_SRC_IMPLEMENTATION()` address returned by the
factory, and the fixed ABI constant
`iface.getEvent('SrcEscrowCreated').topicHash`. -/
structure TakerEnv where
  resolverContractBalance : Nat
  escrowSrcImplementation : Nat
  srcEscrowCreatedTopic : Nat
deriving DecidableEq

/-- The selector constant for the `ESCROW_SRC_IMPLEMENTATION()` view
call, `id('ESCROW_SRC_IMPLEMENTATION()').slice(0, 10)`. -/
def escrowSrcImplementationSelector : Nat := 0

/-- Embedding of `initialize_resolve_contracts` (taker.ts): query the
resolver contract's WETH balance and, when it is below
`parseEther('0.1')`, deposit and transfer that amount. -/
def initialize_resolve_contracts (bal : Nat) : List SwapAction :=
  [SwapAction.queryBalance CONFIG.WETH CONFIG.resolverContract] ++
  (if bal < 10 ^ 17 then
    [SwapAction.submitTx (TransactionRequest.mk CONFIG.WETH CallData.wethDeposit
       (some (10 ^ 17))),
     SwapAction.submitTx (TransactionRequest.mk CONFIG.WETH
       (CallData.wethTransfer CONFIG.resolverContract (10 ^ 17)) none)]
   else [])

/-- The fill transaction taker.ts submits: the persisted `resolverTxnData`
sent to the resolver contract's source address. -/
def takerFillRequest (od : OrderData) : TransactionRequest :=
  { toAddr := takerResolver.srcAddress
    data := od.resolverTxnData
    value := none }

/-- Embedding of `main` of taker.ts as its trace of outward actions:
initialise the resolver contract, read order.json, submit the persisted
fill transaction (which creates and funds the source escrow), fetch the
`SrcEscrowCreated` log of the fill's block, read the escrow
implementation, sleep ten seconds "to simulate the time locks", and
submit the source-side withdraw carrying the artifact's secret and the
decoded immutables.  When no `SrcEscrowCreated` log is found the decode
throws and the run aborts before any withdraw.  At no point is any
escrow's state — in particular the destination side's — queried. -/
def takerMainTrace (od : OrderData) (blockLogs : List EthLog) (env : TakerEnv) :
    List SwapAction :=
  initialize_resolve_contracts env.resolverContractBalance ++
  [SwapAction.queryBalance CONFIG.WETH CONFIG.resolverContract, SwapAction.logMsg,
   SwapAction.readFile orderJsonPath,
   SwapAction.submitTx (takerFillRequest od), SwapAction.logMsg, SwapAction.logMsg,
   SwapAction.queryLogsFor CONFIG.escrowFactory env.srcEscrowCreatedTopic] ++
  match getSrcDeployEvent CONFIG.escrowFactory env.srcEscrowCreatedTopic blockLogs with
  | Except.error _ => []
  | Except.ok (imm, _) =>
    [SwapAction.contractView CONFIG.escrowFactory escrowSrcImplementationSelector,
     SwapAction.logMsg,
     SwapAction.sleepMs 10000,
     SwapAction.logMsg,
     SwapAction.submitTx (takerResolver.withdraw Side.src
       (getSrcEscrowAddress imm env.escrowSrcImplementation) od.secret imm),
     SwapAction.logMsg,
     SwapAction.queryBalance CONFIG.WETH CONFIG.resolverContract,
     SwapAction.logMsg]

/-- Embedding of the withdraw invocation of taker.ts (construct the
withdraw transaction with `Resolver.withdraw`, then send it): the
transaction is constructed from the arguments alone and submitted
unconditionally.  `st` is the escrow's current on-chain lifecycle state,
which the invocation never reads. -/
def invokeWithdraw (st : EscrowState) (res : Resolver) (side : Side) (escrow : Nat)
    (secret : List Nat) (imm : Immutables) : List SwapAction :=
  match st with
  | _ => [SwapAction.submitTx (res.withdraw side escrow secret imm)]

/-- Embedding of a cancel invocation (construct the cancel transaction
with `Resolver.cancel`, then send it): the transaction is constructed
from the arguments alone and submitted unconditionally.  `st` is the
escrow's current on-chain lifecycle state, which the invocation never
reads. -/
def invokeCancel (st : EscrowState) (res : Resolver) (side : Side) (escrow : Nat)
    (imm : Immutables) : List SwapAction :=
  match st with
  | _ => [SwapAction.submitTx (res.cancel side escrow imm)]

/-! ## Trace predicates -/

/-- Does a piece of calldata carry the given secret in clear? -/
def CallData.carriesSecret (s : List Nat) : CallData → Bool
  | CallData.withdraw _ sec _ => sec == s
  | _ => false

/-- Does an action reveal the given secret in a transmitted transaction
payload? -/
def SwapAction.revealsSecret (s : List Nat) : SwapAction → Bool
  | SwapAction.submitTx tx => tx.data.carriesSecret s
  | _ => false

/-- Does an action make the given secret available on an outward
interface (a transmitted payload or a persisted file)? -/
def SwapAction.exposesSecret (s : List Nat) : SwapAction → Bool
  | SwapAction.submitTx tx => tx.data.carriesSecret s
  | SwapAction.writeOrderFile _ od => od.secret == s
  | _ => false

/-- Does an action observe the destination-side escrow in state
`Funded`? -/
def SwapAction.observesDstFunded : SwapAction → Bool
  | SwapAction.observeEscrowState chain _ st =>
    chain == CONFIG.chainDst && st == EscrowState.funded
  | _ => false

/-- Is an action a query of an escrow's current on-chain state? -/
def SwapAction.isEscrowStateQuery : SwapAction → Bool
  | SwapAction.observeEscrowState _ _ _ => true
  | _ => false

/-- The withdraw calls submitted along a trace: for each withdraw
transaction, the escrow address, the presented secret and the presented
immutables. -/
def SwapAction.withdrawArgs : SwapAction → Option (Nat × List Nat × Immutables)
  | SwapAction.submitTx tx =>
    match tx.data with
    | CallData.withdraw escrow sec imm => some (escrow, sec, imm)
    | _ => none
  | _ => none

def withdrawCalls (tr : List SwapAction) : List (Nat × List Nat × Immutables) :=
  tr.filterMap SwapAction.withdrawArgs

/-- The claim of spec section 4.4 on a trace: every action revealing the
secret is preceded by an observation of the destination escrow in state
`Funded`. -/
def revealRespectsDstFunding (s : List Nat) (tr : List SwapAction) : Prop :=
  ∀ i < tr.length, (tr.getD i SwapAction.logMsg).revealsSecret s = true →
    (tr.take i).any SwapAction.observesDstFunded = true

instance (s : List Nat) (tr : List SwapAction) : Decidable (revealRespectsDstFunding s tr) := by
  unfold revealRespectsDstFunding
  infer_instance

/-- The claim of spec section 8 on a trace: every action exposing the
secret on an outward interface is preceded by an observation of the
destination escrow in state `Funded`. -/
def exposureRespectsDstFunding (s : List Nat) (tr : List SwapAction) : Prop :=
  ∀ i < tr.length, (tr.getD i SwapAction.logMsg).exposesSecret s = true →
    (tr.take i).any SwapAction.observesDstFunded = true

instance (s : List Nat) (tr : List SwapAction) : Decidable (exposureRespectsDstFunding s tr) := by
  unfold exposureRespectsDstFunding
  infer_instance

/-! ## Sample values for concrete runs -/

/-- A concrete maker environment: ample WETH balance, the golden-vector
secret as the prover-supplied hashlock secret. -/
def e0 : MakerEnv :=
  { userAddress := 0xAA
    userWethBalance := 5 * 10 ^ 18
    hashLockSecret := goldenSecret
    startTime := 1000
    salt := 1
    nonce := 2
    sigR := 3
    sigVS := 4
    traits := 5
    traitArgs := 6 }

/-- The order.json artifact produced by the sample maker run. -/
def od0 : OrderData := makerOrderData e0

/-- A concrete `SrcEscrowCreated` log emitted by the configured factory. -/
def sampleLog : EthLog :=
  { address := CONFIG.escrowFactory
    topic := 0x77
    srcImmutablesData := { v0 := 11, v1 := 12, v2 := 13, v3 := 14, v4 := 15, v5 := 16, v6 := 17, v7 := 18 }
    complementData := { c0 := 21, c1 := 22, c2 := 23, c3 := 24 } }

/-- A second matching log in the same block, with different payload. -/
def sampleLog2 : EthLog :=
  { address := CONFIG.escrowFactory
    topic := 0x77
    srcImmutablesData := { v0 := 31, v1 := 32, v2 := 33, v3 := 34, v4 := 35, v5 := 36, v6 := 37, v7 := 38 }
    complementData := { c0 := 41, c1 := 42, c2 := 43, c3 := 44 } }

/-- The immutables recorded by the sample `SrcEscrowCreated` event. -/
def imm1 : Immutables := (decodeSrcEscrowCreated sampleLog).1

/-- A concrete taker environment matching `sampleLog`'s topic. -/
def env0 : TakerEnv :=
  { resolverContractBalance := 10 ^ 17
    escrowSrcImplementation := 0xBB
    srcEscrowCreatedTopic := 0x77 }

/-- The sample taker run's trace. -/
def tr0 : List SwapAction := takerMainTrace od0 [sampleLog] env0

/-! ## Claims -/

set_option maxRecDepth 100000

/-- C2 counterexample: the hashlock the repository pins for the golden
secret is its keccak-256 value, which differs from the secret's SHA-256 —
`commit` is not SHA-256. -/
theorem hashlock_is_not_sha256 :
    HashLock.hashSecret goldenSecret = goldenExpectedHash ∧
    sha256 goldenSecret ≠ goldenExpectedHash := by
  constructor
  · decide
  · decide

/-- C2 (amended): `commit` (`HashLock.hashSecret`) is the keccak-256 hash
of the secret, matching the repository's golden vector; it is
deterministic; `verify(commit(s), s)` is true for every secret `s`; and
`verify(commit(s), s')` is false for every `s'` whose keccak-256 digest
differs from that of `s` (in particular for the concrete distinct sample
secret). -/
theorem hashlock_correctness :
    (∀ s s' : List Nat, s = s' → HashLock.hashSecret s = HashLock.hashSecret s') ∧
    (∀ s : List Nat, HashLock.verify (HashLock.hashSecret s) s = true) ∧
    (∀ s s' : List Nat, HashLock.hashSecret s' ≠ HashLock.hashSecret s →
      HashLock.verify (HashLock.hashSecret s) s' = false) ∧
    HashLock.hashSecret goldenSecret = goldenExpectedHash ∧
    HashLock.verify (HashLock.hashSecret goldenSecret) otherSecret = false := by
  refine ⟨?_, ?_, ?_, ?_, ?_⟩
  · intro s s' h
    rw [h]
  · intro s
    simp [HashLock.verify]
  · intro s s' h
    simp [HashLock.verify, h]
  · decide
  · decide

/-- C2 witness: the amended claim instantiated on the golden secret and
the distinct sample secret. -/
theorem hashlock_correctness_witness :
    HashLock.hashSecret goldenSecret = HashLock.hashSecret goldenSecret ∧
    HashLock.verify (HashLock.hashSecret goldenSecret) otherSecret = false :=
  ⟨hashlock_correctness.1 goldenSecret goldenSecret rfl,
   hashlock_correctness.2.2.1 goldenSecret otherSecret (by decide)⟩

/-- C4: constructing timelocks from offsets that violate the monotonic
ordering invariant is rejected with a validation error (modelled from the
spec: the construction lives in the external SDK's `TimeLocks.new`). -/
theorem timelocks_new_rejects_unordered (t : TimeLockOffsets)
    (h : orderedOffsets t = false) :
    TimeLocksNew t = Except.error ValidationError.nonIncreasingTimeLocks := by
  simp [TimeLocksNew, h]

/-- C4 witness: offsets with `srcCancellation` below `srcPublicWithdrawal`
are rejected. -/
theorem timelocks_new_rejects_unordered_witness :
    TimeLocksNew
      { srcWithdrawal := 10, srcPublicWithdrawal := 120, srcCancellation := 119,
        srcPublicCancellation := 122, dstWithdrawal := 10, dstPublicWithdrawal := 100,
        dstCancellation := 101 } =
      Except.error ValidationError.nonIncreasingTimeLocks :=
  timelocks_new_rejects_unordered _ (by decide)

/-- The per-side ordering invariant of spec section 3 together with the
cross-side requirement that the source cancellation window opens no
earlier than the destination one. -/
def sideOrderingInvariant (t : TimeLockOffsets) : Prop :=
  orderedOffsets t = true ∧ t.dstCancellation ≤ t.srcCancellation

instance (t : TimeLockOffsets) : Decidable (sideOrderingInvariant t) := by
  unfold sideOrderingInvariant
  infer_instance

/-- C5: every order the programs construct uses the literal offset
records, and each of those records satisfies
`withdrawal < publicWithdrawal < cancellation` on both sides with the
source cancellation no earlier than the destination cancellation. -/
theorem constructed_orders_satisfy_timelock_invariant :
    (∀ (p : OrderParams) (salt nonce : Nat),
      (make_order p salt nonce).timeLocks = makeOrderOffsets) ∧
    sideOrderingInvariant makeOrderOffsets ∧
    sideOrderingInvariant createCrossChainOrderOffsets ∧
    sideOrderingInvariant makerVariantOffsets ∧
    sideOrderingInvariant resolverVariantOffsets :=
  ⟨fun _ _ _ => rfl, by decide, by decide, by decide, by decide⟩

/-- C9: the Solidity `EscrowFactory` constructor ignores its
`rescueDelaySrc` argument — both rescue-delay slots of the base
constructor receive `rescueDelayDst`, so two deployments differing only
in `rescueDelaySrc` are configured identically. -/
theorem escrow_factory_ignores_rescue_delay_src
    (lop feeToken accessToken owner s1 s2 d : Nat) :
    EscrowFactoryConstructor lop feeToken accessToken owner s1 d =
      EscrowFactoryConstructor lop feeToken accessToken owner s2 d ∧
    (EscrowFactoryConstructor lop feeToken accessToken owner s1 d).rescueDelaySrc = d ∧
    (EscrowFactoryConstructor lop feeToken accessToken owner s1 d).rescueDelayDst = d :=
  ⟨rfl, rfl, rfl⟩

/-- C10: `getSrcDeployEvent` yields the thrown TypeError exactly when the
block holds no `SrcEscrowCreated` log from the factory address, and
otherwise decodes only the first matching log, ignoring the rest. -/
theorem get_src_deploy_event_first_log (f t : Nat) (logs : List EthLog) :
    (getSrcDeployEvent f t logs = Except.error JsError.typeError ↔
      logs.filter (fun l => l.address == f && l.topic == t) = []) ∧
    (∀ l rest, logs.filter (fun l => l.address == f && l.topic == t) = l :: rest →
      getSrcDeployEvent f t logs = Except.ok (decodeSrcEscrowCreated l)) := by
  constructor
  · unfold getSrcDeployEvent
    cases h : logs.filter (fun l => l.address == f && l.topic == t) with
    | nil => simp [h]
    | cons a as => simp [h]
  · intro l rest h
    unfold getSrcDeployEvent
    simp [h]

/-- C10 witness: an empty block throws; a block with two matching logs
decodes the first. -/
theorem get_src_deploy_event_first_log_witness :
    getSrcDeployEvent 7 9 [] = Except.error JsError.typeError ∧
    getSrcDeployEvent CONFIG.escrowFactory 0x77 [sampleLog, sampleLog2] =
      Except.ok (decodeSrcEscrowCreated sampleLog) :=
  ⟨(get_src_deploy_event_first_log 7 9 []).1.mpr rfl,
   (get_src_deploy_event_first_log CONFIG.escrowFactory 0x77 [sampleLog, sampleLog2]).2
     sampleLog [sampleLog2] (by decide)⟩

/-- C6 counterexample: invoking withdraw (or cancel) on an escrow that is
already in a terminal state still constructs and submits the transaction
— a duplicate submission — and performs no query of the current on-chain
state first. -/
theorem terminal_retry_still_submits :
    invokeWithdraw EscrowState.withdrawn takerResolver Side.src 0xE5C goldenSecret imm1 =
      [SwapAction.submitTx (takerResolver.withdraw Side.src 0xE5C goldenSecret imm1)] ∧
    (invokeWithdraw EscrowState.withdrawn takerResolver Side.src 0xE5C goldenSecret imm1).any
      SwapAction.isEscrowStateQuery = false ∧
    invokeCancel EscrowState.cancelled takerResolver Side.src 0xE5C imm1 =
      [SwapAction.submitTx (takerResolver.cancel Side.src 0xE5C imm1)] ∧
    (invokeCancel EscrowState.cancelled takerResolver Side.src 0xE5C imm1).any
      SwapAction.isEscrowStateQuery = false :=
  ⟨rfl, rfl, rfl, rfl⟩

/-- C6 (amended): `Resolver.withdraw` and `Resolver.cancel` construct
their transactions from the arguments alone; an invocation submits
unconditionally whatever the escrow's current state — so a second
invocation against a terminal escrow submits an identical duplicate
transaction — and no state query precedes the submission. -/
theorem withdraw_cancel_ignore_escrow_state :
    ∀ (st st' : EscrowState) (res : Resolver) (side : Side) (escrow : Nat)
      (sec : List Nat) (imm : Immutables),
    invokeWithdraw st res side escrow sec imm = invokeWithdraw st' res side escrow sec imm ∧
    invokeWithdraw st res side escrow sec imm =
      [SwapAction.submitTx (res.withdraw side escrow sec imm)] ∧
    (invokeWithdraw st res side escrow sec imm).any SwapAction.isEscrowStateQuery = false ∧
    invokeCancel st res side escrow imm = invokeCancel st' res side escrow imm ∧
    invokeCancel st res side escrow imm = [SwapAction.submitTx (res.cancel side escrow imm)] ∧
    (invokeCancel st res side escrow imm).any SwapAction.isEscrowStateQuery = false := by
  intro st st' res side escrow sec imm
  cases st <;> cases st' <;> exact ⟨rfl, rfl, rfl, rfl, rfl, rfl⟩

/-! Helper reduction lemmas for the trace predicates. -/

lemma carriesSecret_withdraw (s sec : List Nat) (e : Nat) (i : Immutables) :
    CallData.carriesSecret s (CallData.withdraw e sec i) = (sec == s) := rfl

lemma carriesSecret_wethDeposit (s : List Nat) :
    CallData.carriesSecret s CallData.wethDeposit = false := rfl

lemma carriesSecret_wethApprove (s : List Nat) (sp a : Nat) :
    CallData.carriesSecret s (CallData.wethApprove sp a) = false := rfl

lemma carriesSecret_wethTransfer (s : List Nat) (r a : Nat) :
    CallData.carriesSecret s (CallData.wethTransfer r a) = false := rfl

/-- C3 counterexample: in the sample maker run the artifact carrying the
secret is written to order.json as the fifth action, while no action of
the run ever observes the destination escrow as Funded — the secret is
persisted to an externally readable file before any funding. -/
theorem maker_persists_secret_unfunded :
    ¬ exposureRespectsDstFunding e0.hashLockSecret (makerMainTrace e0) := by
  intro h
  exact absurd (h 4 (by decide) (by decide)) (by decide)

/-- C3 (amended): every maker run persists the secret in clear into the
order.json handoff artifact (the section 6 handoff contract) at
order-creation time, and no action of the maker run observes any escrow —
in particular not the destination escrow as Funded. -/
theorem maker_writes_secret_at_order_creation (e : MakerEnv) :
    SwapAction.writeOrderFile orderJsonPath (makerOrderData e) ∈ makerMainTrace e ∧
    (makerOrderData e).secret = e.hashLockSecret ∧
    (makerMainTrace e).any SwapAction.observesDstFunded = false := by
  refine ⟨?_, rfl, ?_⟩
  · simp [makerMainTrace]
  · simp [makerMainTrace, ensureWethAndApproval, List.any_append,
      SwapAction.observesDstFunded]

/-- C1 counterexample: in the sample taker run the secret is revealed by
the source-side withdraw (the thirteenth action) although no action of
the run ever observes the destination escrow in state Funded. -/
theorem taker_reveals_secret_without_dst_funding :
    ¬ revealRespectsDstFunding od0.secret tr0 := by
  intro h
  exact absurd (h 12 (by decide) (by decide)) (by decide)

/-- C1 (amended): the taker never observes the destination escrow's state
at all; when the source-escrow creation event decodes, the secret is
released in exactly one transaction — the source-side withdraw submitted
after a fixed ten-second sleep — and when the decode fails no reveal
happens.  The hypothesis states that the persisted fill calldata itself
does not carry the secret (it is `deploySrc` calldata). -/
theorem taker_reveal_without_dst_observation (od : OrderData) (logs : List EthLog)
    (env : TakerEnv) (hfill : od.resolverTxnData.carriesSecret od.secret = false) :
    (takerMainTrace od logs env).any SwapAction.observesDstFunded = false ∧
    (∀ e, getSrcDeployEvent CONFIG.escrowFactory env.srcEscrowCreatedTopic logs =
        Except.error e →
      (takerMainTrace od logs env).filter (SwapAction.revealsSecret od.secret) = []) ∧
    (∀ imm comp, getSrcDeployEvent CONFIG.escrowFactory env.srcEscrowCreatedTopic logs =
        Except.ok (imm, comp) →
      (takerMainTrace od logs env).filter (SwapAction.revealsSecret od.secret) =
        [SwapAction.submitTx (takerResolver.withdraw Side.src
          (getSrcEscrowAddress imm env.escrowSrcImplementation) od.secret imm)]) := by
  have hfill3 : CallData.carriesSecret od.secret od.resolverTxnData = false := hfill
  refine ⟨?_, ?_, ?_⟩
  · unfold takerMainTrace initialize_resolve_contracts
    split <;> split <;> simp [SwapAction.observesDstFunded]
  · intro e he
    unfold takerMainTrace initialize_resolve_contracts
    rw [he]
    split <;>
      simp [SwapAction.revealsSecret, takerFillRequest, hfill3,
        carriesSecret_wethDeposit, carriesSecret_wethApprove, carriesSecret_wethTransfer]
  · intro imm comp hok
    unfold takerMainTrace initialize_resolve_contracts
    rw [hok]
    split <;>
      simp [SwapAction.revealsSecret, takerFillRequest, hfill3, Resolver.withdraw,
        carriesSecret_withdraw, carriesSecret_wethDeposit, carriesSecret_wethApprove,
        carriesSecret_wethTransfer]

/-- C1 witness: the amended claim instantiated on the sample taker run. -/
theorem taker_reveal_without_dst_observation_witness :
    (takerMainTrace od0 [sampleLog] env0).any SwapAction.observesDstFunded = false ∧
    (takerMainTrace od0 [sampleLog] env0).filter (SwapAction.revealsSecret od0.secret) =
      [SwapAction.submitTx (takerResolver.withdraw Side.src
        (getSrcEscrowAddress imm1 env0.escrowSrcImplementation) od0.secret imm1)] :=
  ⟨(taker_reveal_without_dst_observation od0 [sampleLog] env0 (by decide)).1,
   (taker_reveal_without_dst_observation od0 [sampleLog] env0 (by decide)).2.2 imm1
     (decodeSrcEscrowCreated sampleLog).2 rfl⟩

/-- C7: the handoff artifact has exactly the five fields orderHash,
resolverTxnData, secret, makerAmount and takerAmount (two artifacts
agreeing on them are equal); the maker records the secret itself in the
artifact; and whenever the escrow-creation event decodes, the taker's
trace contains a source-side withdraw built directly from the artifact's
secret — the resolver-side run never re-derives it. -/
theorem order_json_handoff :
    (∀ a b : OrderData, a = b ↔
      (a.orderHash = b.orderHash ∧ a.resolverTxnData = b.resolverTxnData ∧
       a.secret = b.secret ∧ a.makerAmount = b.makerAmount ∧
       a.takerAmount = b.takerAmount)) ∧
    (∀ e : MakerEnv, (makerOrderData e).secret = e.hashLockSecret) ∧
    (∀ (od : OrderData) (logs : List EthLog) (env : TakerEnv)
       (imm : Immutables) (comp : DstImmutablesComplement),
      getSrcDeployEvent CONFIG.escrowFactory env.srcEscrowCreatedTopic logs =
        Except.ok (imm, comp) →
      SwapAction.submitTx (takerResolver.withdraw Side.src
        (getSrcEscrowAddress imm env.escrowSrcImplementation) od.secret imm) ∈
        takerMainTrace od logs env) := by
  refine ⟨?_, fun _ => rfl, ?_⟩
  · intro a b
    constructor
    · rintro rfl
      exact ⟨rfl, rfl, rfl, rfl, rfl⟩
    · rintro ⟨h1, h2, h3, h4, h5⟩
      cases a
      cases b
      simp_all
  · intro od logs env imm comp hok
    unfold takerMainTrace
    rw [hok]
    simp

/-- C7 witness: the field characterisation and the withdraw membership on
the sample run's artifact. -/
theorem order_json_handoff_witness :
    od0 = od0 ∧
    SwapAction.submitTx (takerResolver.withdraw Side.src
      (getSrcEscrowAddress imm1 env0.escrowSrcImplementation) od0.secret imm1) ∈
      takerMainTrace od0 [sampleLog] env0 :=
  ⟨(order_json_handoff.1 od0 od0).mpr ⟨rfl, rfl, rfl, rfl, rfl⟩,
   order_json_handoff.2.2 od0 [sampleLog] env0 imm1 (decodeSrcEscrowCreated sampleLog).2 rfl⟩

/-- C8: whenever the escrow-creation event decodes to immutables `imm`,
the taker's only withdraw submission presents exactly `imm` — the same
immutables recorded at escrow creation and fed to the escrow-address
computation — together with the artifact's secret.  The first hypothesis
states that the persisted fill calldata is not itself a withdraw call (it
is `deploySrc` calldata). -/
theorem withdraw_uses_recorded_immutables (od : OrderData) (logs : List EthLog)
    (env : TakerEnv) (imm : Immutables) (comp : DstImmutablesComplement)
    (hfillW : ∀ e s i, od.resolverTxnData ≠ CallData.withdraw e s i)
    (hok : getSrcDeployEvent CONFIG.escrowFactory env.srcEscrowCreatedTopic logs =
      Except.ok (imm, comp)) :
    withdrawCalls (takerMainTrace od logs env) =
      [(getSrcEscrowAddress imm env.escrowSrcImplementation, od.secret, imm)] := by
  unfold withdrawCalls takerMainTrace initialize_resolve_contracts
  rw [hok]
  cases hdata : od.resolverTxnData
  case withdraw e s i => exact absurd hdata (hfillW e s i)
  all_goals
    (split <;>
      simp [List.filterMap_cons, takerFillRequest, hdata, Resolver.withdraw,
        SwapAction.withdrawArgs])

/-- C8 witness: the recorded-immutables property on the sample run. -/
theorem withdraw_uses_recorded_immutables_witness :
    withdrawCalls (takerMainTrace od0 [sampleLog] env0) =
      [(getSrcEscrowAddress imm1 env0.escrowSrcImplementation, od0.secret, imm1)] :=
  withdraw_uses_recorded_immutables od0 [sampleLog] env0 imm1
    (decodeSrcEscrowCreated sampleLog).2
    (fun _ _ _ h => CallData.noConfusion h) rfl
